import Mathlib

/-!
Verification of the digital-zoom camera controller (src/index.tsx).

The source is a single event-driven UI controller over browser media
primitives.  We embed its global mutable state as an explicit record
`AppState` and each handler as a state-transforming function.  Platform
reactions (getUserMedia results, MediaRecorder constructor success,
produced data chunks, JPEG encoding output, device enumeration results,
the current clock reading) are passed in as explicit parameters, since
they come from the environment, not from this program.

Numbers that are JavaScript floats in the source (the zoom factor and the
crop arithmetic) are embedded as rationals; the crop computations at the
two call sites are literally the same four expressions, so their equality
is independent of the number representation.
-/

namespace DigitalZoomCamera

/-- A binary data chunk produced by the recorder (only its size is
observable to the program: `event.data.size`). -/
structure Blob where
  size : Nat
deriving DecidableEq, Repr

/-- The tag of the current exportable artifact (`mediaType` in the source:
a string union of photo and video, or null). -/
inductive MediaType
  | photo
  | video
deriving DecidableEq, Repr

/-- A camera device descriptor as returned by device enumeration
(`MediaDeviceInfo`: deviceId, label, kind). -/
structure Device where
  deviceId : String
  label : String
  kind : String
deriving DecidableEq, Repr

/-- A live capture stream (`MediaStream`).  `id` identifies the stream so
that releasing it can be observed; `settingsDeviceId` models
`getVideoTracks()[0].getSettings().deviceId`; `audioTracks` the ids of
`getAudioTracks()`. -/
structure Stream where
  id : Nat
  settingsDeviceId : Option String
  audioTracks : List Nat
deriving DecidableEq, Repr

/-- A constructed `MediaRecorder`: it records the combined track set it
was built from (the canvas-captured video track plus the raw stream's
audio tracks). -/
structure Recorder where
  canvasVideo : Bool
  audioTracks : List Nat
deriving DecidableEq, Repr

/-- The href offered by the download link built in `saveMedia`: either the
photo's JPEG data URL or the object URL of the finalized clip (modelled by
the clip's chunk list). -/
inductive Href
  | image (data : String)
  | clip (blobs : List Blob)
deriving DecidableEq, Repr

/-- The download offer `saveMedia` produces: an href and the `download`
file name of the anchor element. -/
structure SaveOffer where
  href : Href
  download : String
deriving DecidableEq, Repr

/-- The crop rectangle (sourceX, sourceY, sourceWidth, sourceHeight). -/
structure Rect where
  x : ℚ
  y : ℚ
  w : ℚ
  h : ℚ
deriving DecidableEq, Repr

/-- The program's global mutable state together with the DOM state it
reads and writes.  Field names follow the source's globals and elements.
`ctx` is `canvas.getContext('2d')`, which may be null.
`errorMsg` is the error-message region: `some m` once `showError m` ran.
`photoSrc` is `photo.src`: `none` while never assigned (in the DOM an
unassigned src reflects the page location, which is what the
`photo.src !== window.location.href` guard in `saveMedia` tests for).
`recordedVideoSrc` is `recordedVideo.src`: the object URL of the
finalized clip blob, modelled by the clip's chunk list.
`stoppedStreamIds` records the streams whose tracks were stopped. -/
structure AppState where
  ctx : Option Unit
  currentStream : Option Stream
  currentZoom : ℚ
  hasStartedDrawing : Bool
  mediaRecorder : Option Recorder
  recordedChunks : List Blob
  isRecording : Bool
  mediaType : Option MediaType
  videoDevices : List Device
  currentDeviceIndex : Nat
  errorMsg : Option String
  photoSrc : Option String
  recordedVideoSrc : Option (List Blob)
  photoHidden : Bool
  recordedVideoHidden : Bool
  saveButtonHidden : Bool
  saveButtonLabel : String
  captureDisabled : Bool
  recordDisabled : Bool
  switchCameraDisabled : Bool
  cameraSelectDisabled : Bool
  zoomSliderDisabled : Bool
  saveDisabled : Bool
  switchCameraHidden : Bool
  selectorHidden : Bool
  zoomSliderValue : String
  zoomValueText : String
  cameraSelectValue : String
  cameraOptions : List (String × String)
  stoppedStreamIds : List Nat
  recordButtonActive : Bool
  recordButtonText : String
deriving DecidableEq, Repr

/-- `Number.prototype.toFixed(1)` for the nonnegative values the zoom
slider produces: round to one decimal and print as "i.d". -/
def toFixed1 (q : ℚ) : String :=
  let n : Int := (q * 10 + 1 / 2).floor
  toString (n / 10) ++ "." ++ toString (n % 10)

/-- Error message of `initCamera`'s catch block (without the appended
platform error detail). -/
def initCameraErrorMsg : String :=
  "カメラまたはマイクにアクセスできませんでした。デバイスが接続されており、アクセスが許可されていることを確認してください。"

/-- Error message shown by `populateCameraList` when no camera exists. -/
def noCameraMsg : String := "利用可能なカメラが見つかりません。"

/-- Error message of `startRecording`'s missing-stream/context guard. -/
def startRecordingErrorMsg : String :=
  "録画を開始できません: カメラストリームまたは描画コンテキストが利用できません。"

/-- Error message of `startRecording`'s codec-rejection catch block, with
the template's mime type substituted. -/
def codecErrorMsg : String :=
  "お使いのブラウザはこの形式での録画をサポートしていません: video/webm; codecs=vp9,opus"

/-- `showError`: writes the message region and unhides it. -/
def showError (message : String) (s : AppState) : AppState :=
  { s with errorMsg := some message }

/-- `stopCurrentStream`: stops every track of the current stream and
clears it; a no-op when there is none. -/
def stopCurrentStream (s : AppState) : AppState :=
  match s.currentStream with
  | some st =>
      { s with stoppedStreamIds := s.stoppedStreamIds ++ [st.id],
               currentStream := none }
  | none => s

/-- `populateCameraList`, given the result of
`navigator.mediaDevices.enumerateDevices()`: filters video inputs,
rebuilds the dropdown options, hides the switch controls when zero or one
device exists, and reports an error when none exists.  (The source's
catch block handles an enumeration failure; enumeration is modelled as
always yielding a list, as no claim concerns that path.) -/
def populateCameraList (devices : List Device) (s : AppState) : AppState :=
  let vids := devices.filter (fun d => d.kind == "videoinput")
  let s := { s with videoDevices := vids, cameraOptions := [] }
  if vids.length = 0 then
    showError noCameraMsg
      { s with switchCameraHidden := true, selectorHidden := true }
  else
    let opts := vids.enum.map (fun p =>
      (p.2.deviceId,
       if p.2.label == "" then "カメラ " ++ toString (p.1 + 1) else p.2.label))
    let hid := vids.length ≤ 1
    { s with cameraOptions := opts,
             switchCameraHidden := hid, selectorHidden := hid }

/-- `initCamera deviceId`: stops any existing stream, then requests a new
one.  `gumResult` is the platform's answer to `getUserMedia` (`none` is
the rejection: permission denied, device busy, no device).  On success
the stream is stored and played; if device labels were missing the list
is repopulated from `enumDevices`; finally the UI is synced to the device
the stream actually uses.  On failure the catch block shows an error. -/
def initCamera (deviceId : Option String) (gumResult : Option Stream)
    (enumDevices : List Device) (s : AppState) : AppState :=
  let s := stopCurrentStream s
  match gumResult with
  | none => showError initCameraErrorMsg s
  | some stream =>
    let s := { s with currentStream := some stream }
    let s :=
      match s.videoDevices with
      | d :: _ => if d.label == "" then populateCameraList enumDevices s else s
      | [] => s
    match stream.settingsDeviceId with
    | some did =>
      match s.videoDevices.findIdx? (fun d => d.deviceId == did) with
      | some idx => { s with currentDeviceIndex := idx, cameraSelectValue := did }
      | none => s
    | none => s

/-- The crop rectangle computed by `drawFrame` (src/index.tsx lines
150-153) from the frame dimensions and the current zoom. -/
def drawFrameCrop (frameW frameH zoom : ℚ) : Rect :=
  let sourceWidth := frameW / zoom
  let sourceHeight := frameH / zoom
  let sourceX := (frameW - sourceWidth) / 2
  let sourceY := (frameH - sourceHeight) / 2
  ⟨sourceX, sourceY, sourceWidth, sourceHeight⟩

/-- The crop rectangle computed by `takePicture` (src/index.tsx lines
170-178) from the frame dimensions and the current zoom. -/
def takePictureCrop (frameW frameH zoom : ℚ) : Rect :=
  let sourceWidth := frameW / zoom
  let sourceHeight := frameH / zoom
  let sourceX := (frameW - sourceWidth) / 2
  let sourceY := (frameH - sourceHeight) / 2
  ⟨sourceX, sourceY, sourceWidth, sourceHeight⟩

/-- `takePicture`: bails out without the draw context; otherwise draws the
cropped frame into a temporary canvas, encodes it (`jpegData` is the
`toDataURL('image/jpeg', 0.9)` result, produced by the platform), shows
the photo, and publishes it as the current artifact. -/
def takePicture (jpegData : String) (s : AppState) : AppState :=
  match s.ctx with
  | none => s
  | some _ =>
    { s with photoSrc := some jpegData,
             photoHidden := false,
             recordedVideoHidden := true,
             saveButtonHidden := false,
             saveButtonLabel := "写真保存",
             mediaType := some MediaType.photo }

/-- `updateRecordingUI`: while recording, marks the record button as the
stop control and disables the capture button, the switch button and the
device dropdown, leaving the zoom slider enabled; when idle, restores
them (switch/select stay disabled when at most one device exists). -/
def updateRecordingUI (s : AppState) : AppState :=
  if s.isRecording then
    { s with recordButtonActive := true,
             recordButtonText := "停止",
             captureDisabled := true,
             switchCameraDisabled := true,
             cameraSelectDisabled := true,
             zoomSliderDisabled := false }
  else
    { s with recordButtonActive := false,
             recordButtonText := "録画",
             captureDisabled := false,
             switchCameraDisabled := s.videoDevices.length ≤ 1,
             cameraSelectDisabled := s.videoDevices.length ≤ 1,
             zoomSliderDisabled := false }

/-- `startRecording`: without a stream or draw context it reports an
error and returns.  Otherwise it builds the combined stream (canvas video
plus the raw stream's audio), clears the chunk buffer, and constructs a
`MediaRecorder` for `video/webm; codecs=vp9,opus`; `codecSupported`
models whether the constructor succeeds.  On constructor failure the
catch block reports an error and returns (the buffer is already
cleared).  On success the handlers are installed, recording starts, and
the UI is updated. -/
def startRecording (codecSupported : Bool) (s : AppState) : AppState :=
  match s.currentStream, s.ctx with
  | some stream, some _ =>
    let s := { s with recordedChunks := [] }
    if codecSupported then
      let s := { s with mediaRecorder := some ⟨true, stream.audioTracks⟩ }
      updateRecordingUI { s with isRecording := true }
    else
      showError codecErrorMsg s
  | _, _ => showError startRecordingErrorMsg s

/-- The `mediaRecorder.ondataavailable` handler: appends the produced
chunk to the buffer only when its size is positive. -/
def ondataavailable (data : Blob) (s : AppState) : AppState :=
  if data.size > 0 then
    { s with recordedChunks := s.recordedChunks ++ [data] }
  else s

/-- The `mediaRecorder.onstop` handler: concatenates the buffered chunks
into one blob, publishes its object URL as the recorded video, shows it,
and tags the current artifact as video. -/
def onstop (s : AppState) : AppState :=
  { s with recordedVideoSrc := some s.recordedChunks,
           recordedVideoHidden := false,
           photoHidden := true,
           saveButtonHidden := false,
           saveButtonLabel := "動画保存",
           mediaType := some MediaType.video }

/-- `stopRecording`: when a recorder exists, stops it (which later fires
`onstop`), clears the recording flag, and updates the UI. -/
def stopRecording (s : AppState) : AppState :=
  match s.mediaRecorder with
  | some _ => updateRecordingUI { s with isRecording := false }
  | none => s

/-- `new Date().toISOString().replace(/[:.]/g, '-')`. -/
def sanitizeTimestamp (iso : String) : String :=
  iso.map (fun c => if c == ':' || c == '.' then '-' else c)

/-- `saveMedia`: offers the current artifact for download.  A photo with
an assigned src yields `photo-<timestamp>.jpg` over its data URL; a video
with an assigned src yields `video-<timestamp>.mp4` over its object URL;
otherwise nothing is offered. `isoTimestamp` is the clock reading. -/
def saveMedia (isoTimestamp : String) (s : AppState) : Option SaveOffer :=
  let timestamp := sanitizeTimestamp isoTimestamp
  match s.mediaType, s.photoSrc, s.recordedVideoSrc with
  | some MediaType.photo, some u, _ =>
      some ⟨Href.image u, "photo-" ++ timestamp ++ ".jpg"⟩
  | some MediaType.video, _, some v =>
      some ⟨Href.clip v, "video-" ++ timestamp ++ ".mp4"⟩
  | _, _, _ => none

/-- The zoom-slider input handler: stores the slider's numeric value into
the zoom factor and rerenders the display text (the source's
`parseFloat(target.value)` is modelled by taking the slider's numeric
value directly). -/
def handleZoomChange (sliderValue : ℚ) (s : AppState) : AppState :=
  { s with currentZoom := sliderValue,
           zoomValueText := toFixed1 sliderValue }

/-- `switchCamera`: with more than one device, advances the device index
cyclically, syncs the dropdown, resets the slider, zoom factor and
display, and re-acquires the stream for that device. -/
def switchCamera (gumResult : Option Stream) (enumDevices : List Device)
    (s : AppState) : AppState :=
  if s.videoDevices.length > 1 then
    let idx := (s.currentDeviceIndex + 1) % s.videoDevices.length
    let did := ((s.videoDevices[idx]?).map (fun d => d.deviceId)).getD ("")
    let s := { s with currentDeviceIndex := idx,
                      cameraSelectValue := did,
                      zoomSliderValue := "1",
                      currentZoom := 1,
                      zoomValueText := toFixed1 1 }
    initCamera (some did) gumResult enumDevices s
  else s

/-- `handleCameraSelectChange`: reads the selected device id, resets the
slider, zoom factor and display, and re-acquires the stream for it. -/
def handleCameraSelectChange (gumResult : Option Stream)
    (enumDevices : List Device) (s : AppState) : AppState :=
  let did := s.cameraSelectValue
  let s := { s with zoomSliderValue := "1",
                    currentZoom := 1,
                    zoomValueText := toFixed1 1 }
  initCamera (some did) gumResult enumDevices s

/-- The zoom-factor writes and stream acquisitions a handler performs, in
program order, to state ordering facts ("zoom is reset before the stream
is re-acquired"). -/
inductive Event
  | setSelectValue (v : String)
  | setSliderValue (v : String)
  | setZoom (z : ℚ)
  | setZoomText (t : String)
  | acquire (deviceId : Option String)
deriving DecidableEq, Repr

/-- Trace of `initCamera`: its only zoom/stream operation is the
`getUserMedia` acquisition. -/
def initCameraEvents (deviceId : Option String) : List Event :=
  [Event.acquire deviceId]

/-- Trace of `switchCamera`, mirroring its statements in order
(src/index.tsx lines 333-340). -/
def switchCameraEvents (s : AppState) : List Event :=
  if s.videoDevices.length > 1 then
    let idx := (s.currentDeviceIndex + 1) % s.videoDevices.length
    let did := ((s.videoDevices[idx]?).map (fun d => d.deviceId)).getD ("")
    [Event.setSelectValue did, Event.setSliderValue ("1"),
     Event.setZoom 1, Event.setZoomText (toFixed1 1)]
      ++ initCameraEvents (some did)
  else []

/-- Trace of `handleCameraSelectChange`, mirroring its statements in
order (src/index.tsx lines 348-352). -/
def handleCameraSelectChangeEvents (s : AppState) : List Event :=
  [Event.setSliderValue ("1"), Event.setZoom 1, Event.setZoomText (toFixed1 1)]
    ++ initCameraEvents (some s.cameraSelectValue)

/-- The initial values of the globals and of the DOM state. -/
def initialState : AppState :=
  { ctx := some ()
    currentStream := none
    currentZoom := 1
    hasStartedDrawing := false
    mediaRecorder := none
    recordedChunks := []
    isRecording := false
    mediaType := none
    videoDevices := []
    currentDeviceIndex := 0
    errorMsg := none
    photoSrc := none
    recordedVideoSrc := none
    photoHidden := true
    recordedVideoHidden := true
    saveButtonHidden := true
    saveButtonLabel := ""
    captureDisabled := false
    recordDisabled := false
    switchCameraDisabled := false
    cameraSelectDisabled := false
    zoomSliderDisabled := false
    saveDisabled := false
    switchCameraHidden := false
    selectorHidden := false
    zoomSliderValue := "1"
    zoomValueText := "1.0"
    cameraSelectValue := ""
    cameraOptions := []
    stoppedStreamIds := []
    recordButtonActive := false
    recordButtonText := "録画" }

/-- A sample acquired stream. -/
def exampleStream : Stream := ⟨7, some ("cam0"), [3, 4]⟩

/-- A sample camera device. -/
def exampleDevice : Device := ⟨"cam0", "front camera", "videoinput"⟩

/-- A second sample camera device. -/
def exampleDevice2 : Device := ⟨"cam1", "back camera", "videoinput"⟩

/-- A state with a live stream and a draw context, two known devices, and
two chunks left in the buffer by a previously finalized recording. -/
def readyState : AppState :=
  { initialState with
      currentStream := some exampleStream
      videoDevices := [exampleDevice, exampleDevice2]
      recordedChunks := [⟨100⟩, ⟨50⟩]
      recordedVideoSrc := some [⟨100⟩, ⟨50⟩]
      mediaType := some MediaType.video }

/-- A state in the middle of a recording. -/
def recordingState : AppState :=
  { readyState with
      mediaRecorder := some ⟨true, [3, 4]⟩
      isRecording := true
      recordedChunks := [] }

/-- A state whose stream acquisition just failed (no stream, context
present). -/
def noStreamState : AppState :=
  { initialState with videoDevices := [exampleDevice, exampleDevice2] }

/-- A state holding a captured photo as the current artifact. -/
def photoState : AppState :=
  { readyState with
      mediaType := some MediaType.photo
      photoSrc := some ("data:image/jpeg;base64,AAAA")
      recordedVideoSrc := none }

/-- C1: for every frame width, frame height and zoom factor in the
allowed range, the crop rectangle (sourceX, sourceY, sourceWidth,
sourceHeight) computed by the render loop (`drawFrame`) and the one
computed by still capture (`takePicture`) from the same
(frameW, frameH, z) are identical. -/
theorem drawFrame_takePicture_same_crop (frameW frameH zoom : ℚ)
    (hz : 1 ≤ zoom) :
    drawFrameCrop frameW frameH zoom = takePictureCrop frameW frameH zoom :=
  rfl

/-- Witness for C1 at frame 1280×720 and zoom 2. -/
theorem drawFrame_takePicture_same_crop_witness :
    (1 : ℚ) ≤ 2 ∧ drawFrameCrop 1280 720 2 = takePictureCrop 1280 720 2 :=
  ⟨by norm_num, drawFrame_takePicture_same_crop 1280 720 2 (by norm_num)⟩

/-- C2: for every device-switch operation (`switchCamera` when more than
one device exists, and `handleCameraSelectChange` for any selected
device), the zoom factor is set to 1.0 before the stream for the new
device is re-acquired: in each handler's operation trace a `setZoom 1`
write precedes the stream acquisition. -/
theorem zoom_reset_before_reacquire (s t : AppState)
    (h : s.videoDevices.length > 1) :
    (∃ i j : ℕ, i < j ∧
      (switchCameraEvents s)[i]? = some (Event.setZoom 1) ∧
      ∃ d, (switchCameraEvents s)[j]? = some (Event.acquire d)) ∧
    (∃ i j : ℕ, i < j ∧
      (handleCameraSelectChangeEvents t)[i]? = some (Event.setZoom 1) ∧
      ∃ d, (handleCameraSelectChangeEvents t)[j]? = some (Event.acquire d)) := by
  constructor
  · rw [switchCameraEvents, if_pos h]
    exact ⟨2, 4, by norm_num, rfl, _, rfl⟩
  · exact ⟨1, 3, by norm_num, rfl, _, rfl⟩

/-- Witness for C2 at a two-device state. -/
theorem zoom_reset_before_reacquire_witness :
    readyState.videoDevices.length > 1 ∧
    ((∃ i j : ℕ, i < j ∧
      (switchCameraEvents readyState)[i]? = some (Event.setZoom 1) ∧
      ∃ d, (switchCameraEvents readyState)[j]? = some (Event.acquire d)) ∧
    (∃ i j : ℕ, i < j ∧
      (handleCameraSelectChangeEvents readyState)[i]? = some (Event.setZoom 1) ∧
      ∃ d, (handleCameraSelectChangeEvents readyState)[j]? = some (Event.acquire d))) :=
  ⟨by decide, zoom_reset_before_reacquire readyState readyState (by decide)⟩

/-- C3: invoking `startRecording` with no active stream (or no draw
context) reports a user-facing error and leaves the recording state Idle:
`isRecording` stays false, no recorder is created, and nothing but the
error region changes. -/
theorem startRecording_no_stream_stays_idle (codecSupported : Bool)
    (s : AppState) (h : s.currentStream = none ∨ s.ctx = none)
    (hidle : s.isRecording = false) :
    startRecording codecSupported s = showError startRecordingErrorMsg s ∧
    (startRecording codecSupported s).errorMsg = some startRecordingErrorMsg ∧
    (startRecording codecSupported s).isRecording = false ∧
    (startRecording codecSupported s).mediaRecorder = s.mediaRecorder := by
  have hmain : startRecording codecSupported s
      = showError startRecordingErrorMsg s := by
    rcases h with h | h
    · simp [startRecording, h]
    · rcases hcs : s.currentStream with _ | st
      · simp [startRecording, hcs]
      · simp [startRecording, hcs, h]
  refine ⟨hmain, by rw [hmain]; rfl, ?_, by rw [hmain]; rfl⟩
  rw [hmain]
  exact hidle

/-- Witness for C3 at a state with no stream. -/
theorem startRecording_no_stream_stays_idle_witness :
    (noStreamState.currentStream = none ∨ noStreamState.ctx = none) ∧
    noStreamState.isRecording = false ∧
    (startRecording true noStreamState
      = showError startRecordingErrorMsg noStreamState ∧
    (startRecording true noStreamState).errorMsg
      = some startRecordingErrorMsg ∧
    (startRecording true noStreamState).isRecording = false ∧
    (startRecording true noStreamState).mediaRecorder
      = noStreamState.mediaRecorder) :=
  ⟨Or.inl rfl, rfl,
   startRecording_no_stream_stays_idle true noStreamState (Or.inl rfl) rfl⟩

/-- C4 counterexample: at a state holding two buffered chunks from an
earlier finalized recording, a `startRecording` call whose MediaRecorder
construction is rejected does report the codec error and stays Idle, but
the buffered-chunk list was already cleared, so part of the recording
state differs from before the call — the claim "no part of the recording
state (including the buffered-chunk list) differs" is false. -/
theorem startRecording_codec_reject_clears_chunks :
    readyState.isRecording = false ∧
    (startRecording false readyState).errorMsg = some codecErrorMsg ∧
    (startRecording false readyState).isRecording = false ∧
    (startRecording false readyState).mediaRecorder
      = readyState.mediaRecorder ∧
    (startRecording false readyState).recordedChunks
      ≠ readyState.recordedChunks := by
  refine ⟨rfl, rfl, rfl, rfl, ?_⟩
  decide

/-- C4 amended: when the platform rejects the requested codec,
`startRecording` reports a user-facing error, `isRecording` stays false
and no recorder is created, but the buffered-chunk list — cleared before
the constructor runs — is left empty rather than unchanged. -/
theorem startRecording_codec_reject_state (s : AppState) (stream : Stream)
    (hcs : s.currentStream = some stream) (hctx : s.ctx = some ()) :
    startRecording false s
      = showError codecErrorMsg { s with recordedChunks := [] } ∧
    (startRecording false s).isRecording = s.isRecording ∧
    (startRecording false s).mediaRecorder = s.mediaRecorder ∧
    (startRecording false s).recordedChunks = [] := by
  have hmain : startRecording false s
      = showError codecErrorMsg { s with recordedChunks := [] } := by
    simp [startRecording, hcs, hctx]
  exact ⟨hmain, by rw [hmain]; rfl, by rw [hmain]; rfl, by rw [hmain]; rfl⟩

/-- Witness for the amended C4 at a live-stream state. -/
theorem startRecording_codec_reject_state_witness :
    readyState.currentStream = some exampleStream ∧
    readyState.ctx = some () ∧
    (startRecording false readyState
      = showError codecErrorMsg { readyState with recordedChunks := [] } ∧
    (startRecording false readyState).isRecording = readyState.isRecording ∧
    (startRecording false readyState).mediaRecorder
      = readyState.mediaRecorder ∧
    (startRecording false readyState).recordedChunks = []) :=
  ⟨rfl, rfl, startRecording_codec_reject_state readyState exampleStream rfl rfl⟩

/-- C5 counterexample: while Recording, `updateRecordingUI` leaves the
save button enabled (its disabled flag is never set anywhere in the
program), so it is not the case that every control except the zoom
slider and the record/stop toggle is disabled. -/
theorem updateRecordingUI_save_button_enabled :
    recordingState.isRecording = true ∧
    (updateRecordingUI recordingState).isRecording = true ∧
    (updateRecordingUI recordingState).saveDisabled = false :=
  ⟨rfl, rfl, rfl⟩

/-- C5 amended: while Recording, `updateRecordingUI` disables the capture
button, the switch-camera button and the device dropdown and keeps the
zoom slider enabled; the record toggle and the save button keep their
previous (enabled) disabled-state. -/
theorem updateRecordingUI_recording_controls (s : AppState)
    (h : s.isRecording = true) :
    (updateRecordingUI s).captureDisabled = true ∧
    (updateRecordingUI s).switchCameraDisabled = true ∧
    (updateRecordingUI s).cameraSelectDisabled = true ∧
    (updateRecordingUI s).zoomSliderDisabled = false ∧
    (updateRecordingUI s).recordDisabled = s.recordDisabled ∧
    (updateRecordingUI s).saveDisabled = s.saveDisabled := by
  simp [updateRecordingUI, h]

/-- Witness for the amended C5 at a recording state. -/
theorem updateRecordingUI_recording_controls_witness :
    recordingState.isRecording = true ∧
    ((updateRecordingUI recordingState).captureDisabled = true ∧
    (updateRecordingUI recordingState).switchCameraDisabled = true ∧
    (updateRecordingUI recordingState).cameraSelectDisabled = true ∧
    (updateRecordingUI recordingState).zoomSliderDisabled = false ∧
    (updateRecordingUI recordingState).recordDisabled
      = recordingState.recordDisabled ∧
    (updateRecordingUI recordingState).saveDisabled
      = recordingState.saveDisabled) :=
  ⟨rfl, updateRecordingUI_recording_controls recordingState rfl⟩

/-- C6: `saveMedia` offers exactly the latest artifact: a photo yields
one image file named photo-<timestamp>.jpg, a video yields one clip file
named video-<timestamp>.mp4, no artifact yields nothing, and after
producing a photo and then a video only the video is offered. -/
theorem saveMedia_offers_latest_artifact (ts : String) (s : AppState) :
    (∀ u, s.mediaType = some MediaType.photo → s.photoSrc = some u →
      saveMedia ts s
        = some ⟨Href.image u, "photo-" ++ sanitizeTimestamp ts ++ ".jpg"⟩) ∧
    (∀ v, s.mediaType = some MediaType.video → s.recordedVideoSrc = some v →
      saveMedia ts s
        = some ⟨Href.clip v, "video-" ++ sanitizeTimestamp ts ++ ".mp4"⟩) ∧
    (s.mediaType = none → saveMedia ts s = none) ∧
    (s.ctx = some () → ∀ d, saveMedia ts (onstop (takePicture d s))
      = some ⟨Href.clip s.recordedChunks,
              "video-" ++ sanitizeTimestamp ts ++ ".mp4"⟩) := by
  refine ⟨?_, ?_, ?_, ?_⟩
  · intro u h1 h2
    simp [saveMedia, h1, h2]
  · intro v h1 h2
    rcases hp : s.photoSrc with _ | u <;> simp [saveMedia, h1, h2, hp]
  · intro h
    simp [saveMedia, h]
  · intro hctx d
    simp [saveMedia, onstop, takePicture, hctx]

/-- Witness for C6: a photo state offers the image, a video state offers
the clip, the pristine state offers nothing, and photo-then-video offers
only the video. -/
theorem saveMedia_offers_latest_artifact_witness :
    (photoState.mediaType = some MediaType.photo ∧
      saveMedia ("t.s:x") photoState
        = some ⟨Href.image ("data:image/jpeg;base64,AAAA"),
                "photo-" ++ sanitizeTimestamp ("t.s:x") ++ ".jpg"⟩) ∧
    (readyState.mediaType = some MediaType.video ∧
      saveMedia ("t.s:x") readyState
        = some ⟨Href.clip [⟨100⟩, ⟨50⟩],
                "video-" ++ sanitizeTimestamp ("t.s:x") ++ ".mp4"⟩) ∧
    (initialState.mediaType = none ∧
      saveMedia ("t.s:x") initialState = none) ∧
    (photoState.ctx = some () ∧
      saveMedia ("t.s:x") (onstop (takePicture ("d") photoState))
        = some ⟨Href.clip photoState.recordedChunks,
                "video-" ++ sanitizeTimestamp ("t.s:x") ++ ".mp4"⟩) :=
  ⟨⟨rfl, (saveMedia_offers_latest_artifact ("t.s:x") photoState).1 _ rfl rfl⟩,
   ⟨rfl, (saveMedia_offers_latest_artifact ("t.s:x") readyState).2.1 _ rfl rfl⟩,
   ⟨rfl, (saveMedia_offers_latest_artifact ("t.s:x") initialState).2.2.1 rfl⟩,
   ⟨rfl, (saveMedia_offers_latest_artifact ("t.s:x") photoState).2.2.2 rfl ("d")⟩⟩

/-- C7: every failing stream acquisition (`initCamera` whose
`getUserMedia` is rejected: permission denied, device busy, no device)
reports a user-facing error and leaves no active stream — `currentStream`
is null and the previous stream's tracks, if any, have been stopped. -/
theorem initCamera_failure_no_active_stream (deviceId : Option String)
    (enumDevices : List Device) (s : AppState) :
    (initCamera deviceId none enumDevices s).errorMsg
      = some initCameraErrorMsg ∧
    (initCamera deviceId none enumDevices s).currentStream = none ∧
    ∀ st, s.currentStream = some st →
      st.id ∈ (initCamera deviceId none enumDevices s).stoppedStreamIds := by
  rcases hcs : s.currentStream with _ | st <;>
    refine ⟨?_, ?_, ?_⟩ <;>
    simp [initCamera, stopCurrentStream, showError, hcs]

/-- Witness for C7 at a state with a live stream that gets torn down. -/
theorem initCamera_failure_no_active_stream_witness :
    (initCamera (some ("cam1")) none [] readyState).errorMsg
      = some initCameraErrorMsg ∧
    (initCamera (some ("cam1")) none [] readyState).currentStream = none ∧
    readyState.currentStream = some exampleStream ∧
    exampleStream.id
      ∈ (initCamera (some ("cam1")) none [] readyState).stoppedStreamIds :=
  ⟨(initCamera_failure_no_active_stream (some ("cam1")) [] readyState).1,
   (initCamera_failure_no_active_stream (some ("cam1")) [] readyState).2.1,
   rfl,
   (initCamera_failure_no_active_stream (some ("cam1")) [] readyState).2.2
     exampleStream rfl⟩

/-- C8: stopping an active recording whose chunk buffer is empty still
finalizes: once `onstop` fires, the (empty) clip is published as the
current artifact and the recording state is Idle. -/
theorem stopRecording_empty_buffer_finalizes (s : AppState) (r : Recorder)
    (hmr : s.mediaRecorder = some r) (hrec : s.isRecording = true)
    (hchunks : s.recordedChunks = []) :
    (onstop (stopRecording s)).isRecording = false ∧
    (onstop (stopRecording s)).mediaType = some MediaType.video ∧
    (onstop (stopRecording s)).recordedVideoSrc = some ([] : List Blob) := by
  simp [stopRecording, onstop, updateRecordingUI, hmr, hchunks]

/-- Witness for C8 at a recording state with an empty buffer. -/
theorem stopRecording_empty_buffer_finalizes_witness :
    recordingState.mediaRecorder = some ⟨true, [3, 4]⟩ ∧
    recordingState.isRecording = true ∧
    recordingState.recordedChunks = [] ∧
    ((onstop (stopRecording recordingState)).isRecording = false ∧
    (onstop (stopRecording recordingState)).mediaType
      = some MediaType.video ∧
    (onstop (stopRecording recordingState)).recordedVideoSrc
      = some ([] : List Blob)) :=
  ⟨rfl, rfl, rfl,
   stopRecording_empty_buffer_finalizes recordingState ⟨true, [3, 4]⟩
     rfl rfl rfl⟩

/-- C9: the zoom-slider handler mutates only the zoom factor and its
display text: the stream, device list, device index, recording state,
recorder, chunk buffer and current artifact are all unchanged. -/
theorem handleZoomChange_frame (v : ℚ) (s : AppState) :
    (handleZoomChange v s).currentZoom = v ∧
    (handleZoomChange v s).zoomValueText = toFixed1 v ∧
    (handleZoomChange v s).currentStream = s.currentStream ∧
    (handleZoomChange v s).videoDevices = s.videoDevices ∧
    (handleZoomChange v s).currentDeviceIndex = s.currentDeviceIndex ∧
    (handleZoomChange v s).isRecording = s.isRecording ∧
    (handleZoomChange v s).mediaRecorder = s.mediaRecorder ∧
    (handleZoomChange v s).recordedChunks = s.recordedChunks ∧
    (handleZoomChange v s).mediaType = s.mediaType ∧
    (handleZoomChange v s).photoSrc = s.photoSrc ∧
    (handleZoomChange v s).recordedVideoSrc = s.recordedVideoSrc :=
  ⟨rfl, rfl, rfl, rfl, rfl, rfl, rfl, rfl, rfl, rfl, rfl⟩

/-- C10: the data-available handler appends a chunk only when its size is
strictly positive, so a buffer free of zero-size chunks stays free of
them. -/
theorem ondataavailable_chunks_positive (c : Blob) (s : AppState)
    (hinv : ∀ b ∈ s.recordedChunks, 0 < b.size) :
    (∀ b ∈ (ondataavailable c s).recordedChunks, 0 < b.size) ∧
    (0 < c.size →
      (ondataavailable c s).recordedChunks = s.recordedChunks ++ [c]) ∧
    (c.size = 0 → (ondataavailable c s).recordedChunks = s.recordedChunks) := by
  unfold ondataavailable
  by_cases h : c.size > 0
  · rw [if_pos h]
    refine ⟨?_, fun _ => rfl, fun h0 => absurd h (by simp [h0])⟩
    intro b hb
    rcases List.mem_append.mp hb with hb | hb
    · exact hinv b hb
    · rw [List.mem_singleton.mp hb]
      exact h
  · rw [if_neg h]
    exact ⟨hinv, fun hpos => absurd hpos h, fun _ => rfl⟩

/-- Witness for C10: appending a positive-size chunk to a positive-size
buffer keeps every chunk positive. -/
theorem ondataavailable_chunks_positive_witness :
    (∀ b ∈ readyState.recordedChunks, 0 < b.size) ∧
    (∀ b ∈ (ondataavailable ⟨25⟩ readyState).recordedChunks, 0 < b.size) :=
  ⟨by decide, (ondataavailable_chunks_positive ⟨25⟩ readyState (by decide)).1⟩

end DigitalZoomCamera
